import Mathlib

/-!
Shallow embedding of `app/models.py` from the `genblog` repository.

The module defines two ORM-mapped records, `User` and `Post`, a pair of
password helpers (`set_password`, `check_password`) and the Flask-Login
lookup callback `load_user`.  The embedding models:

* the module's global scope as the list of names actually bound by
  its imports and top-level statements (the file never brings in
  `generate_password_hash` / `check_password_hash`, so calling either
  helper resolves the name first and fails with a `NameError`);
* the records as Lean structures over the mapped columns;
* `int(id)` as Python's base-10 `int` constructor on strings;
* `db.session.get(User, pk)` as a primary-key lookup that leaves the
  database state unchanged;
* the storage layer's enforcement of the `unique=True` column flags
  (modelled from the spec, since the engine is external to the file).
-/

namespace GenBlog

/-- Python exceptions that the embedded code can surface. -/
inductive PyErr where
  | nameError (name : String)
  | valueError (msg : String)
  | integrityError (constraint : String)
  deriving DecidableEq, Repr

/-- The names bound in the module scope of `app/models.py`: the six
importing statements of lines 1-6 bind `datetime`, `timezone`,
`Optional`, `sa`, `so`, `login`, `db`, `UserMixin`; the top-level class
and def statements bind `User`, `load_user`, `Post`. -/
def moduleScope : List String :=
  ["datetime", "timezone", "Optional", "sa", "so", "login", "db",
   "UserMixin", "User", "load_user", "Post"]

/-- Relevant Python builtins reachable from the module (the code only
calls `int` and `format` from builtins). -/
def pyBuiltins : List String := ["int", "format"]

/-- Python name resolution for a global reference inside `app/models.py`:
module globals first, then builtins. -/
def resolves (n : String) : Bool :=
  moduleScope.contains n || pyBuiltins.contains n

/-- `datetime.now(timezone.utc)` values: an instant (microseconds since
the epoch) tagged with whether the tzinfo is UTC. -/
structure PyDatetime where
  epochMicros : Nat
  utc : Bool
  deriving DecidableEq, Repr

/-- The `User` mapped class: columns `id` (integer primary key),
`username`, `email`, and the nullable `password_hash`.  The `posts`
write-only relation is not a stored column; it is derived from
`Post.user_id` (see `postsOfAuthor`). -/
structure User where
  id : Int
  username : String
  email : String
  password_hash : Option String
  deriving DecidableEq, Repr

/-- The `Post` mapped class: columns `id` (integer primary key), `body`,
`timestamp`, and the `user_id` foreign key to `User.id`. -/
structure Post where
  id : Int
  body : String
  timestamp : PyDatetime
  user_id : Int
  deriving DecidableEq, Repr

/-- The persisted state: the `user` and `post` tables. -/
structure DB where
  users : List User
  posts : List Post
  deriving DecidableEq, Repr

/-- The write-only `User.posts` relation, materialized on demand: the
posts whose `user_id` foreign key equals the user's primary key. -/
def postsOfAuthor (db : DB) (uid : Int) : List Post :=
  db.posts.filter (fun p => p.user_id == uid)

/-- Declared metadata of a mapped column, as written in the source. -/
structure ColumnSpec where
  maxLen : Nat
  index : Bool
  unique : Bool
  deriving DecidableEq, Repr

/-- `username: sa.String(64), index=True, unique=True` (lines 21-22). -/
def usernameColumn : ColumnSpec := ⟨64, true, true⟩

/-- `email: sa.String(120), index=True, unique=True` (lines 23-24). -/
def emailColumn : ColumnSpec := ⟨120, true, true⟩

/-- `User.set_password` (lines 33-39):
`self.password_hash = generate_password_hash(password)`.
Python evaluates the right-hand side first, which begins by resolving
the global name `generate_password_hash`; `gen` is the hashing primitive
that name would denote if it were bound.  On success the new object
state is returned; when name resolution fails the assignment never
executes and a `NameError` propagates. -/
def set_password (gen : String → String) (u : User) (password : String) :
    Except PyErr User :=
  if resolves "generate_password_hash" then
    Except.ok { u with password_hash := some (gen password) }
  else
    Except.error (PyErr.nameError "generate_password_hash")

/-- The object state after calling `u.set_password(password)`, paired
with the exception if one was raised: a raised exception leaves the
object unchanged (the assignment statement never ran). -/
def set_password_run (gen : String → String) (u : User) (password : String) :
    User × Option PyErr :=
  match set_password gen u password with
  | Except.ok u' => (u', none)
  | Except.error e => (u, some e)

/-- Calling `set_password` on the user with primary key `uid` inside a
database state: only that row's object is touched, and only if the call
returns normally. -/
def set_password_db (gen : String → String) (db : DB) (uid : Int)
    (password : String) : DB × Option PyErr :=
  match db.users.find? (fun u => u.id == uid) with
  | none => (db, none)
  | some u =>
      match set_password_run gen u password with
      | (u', e) =>
          ({ db with
             users := db.users.map (fun v => if v.id == uid then u' else v) },
           e)

/-- `User.check_password` (lines 41-50):
`return check_password_hash(self.password_hash, password)`.
The call first resolves the global name `check_password_hash`; `chk` is
the verification primitive that name would denote if it were bound (it
receives the stored hash, possibly null, and the candidate password). -/
def check_password (chk : Option String → String → Except PyErr Bool)
    (u : User) (password : String) : Except PyErr Bool :=
  if resolves "check_password_hash" then
    chk u.password_hash password
  else
    Except.error (PyErr.nameError "check_password_hash")

/-- Python whitespace stripped by `int()` on strings. -/
def isPySpace (c : Char) : Bool :=
  c == ' ' || c == '\t' || c == '\n' || c == '\r' ||
  c == Char.ofNat 11 || c == Char.ofNat 12

/-- Digit run of a Python base-10 integer literal after the first digit:
underscores may appear singly and only between digits. -/
def digitsTail (acc : Nat) : List Char → Option Nat
  | [] => some acc
  | '_' :: c :: cs =>
      if c.isDigit then digitsTail (acc * 10 + (c.toNat - 48)) cs else none
  | '_' :: [] => none
  | c :: cs =>
      if c.isDigit then digitsTail (acc * 10 + (c.toNat - 48)) cs else none

/-- Digit run of a Python base-10 integer literal: one digit, then
`digitsTail`. -/
def digitsVal : List Char → Option Nat
  | [] => none
  | c :: cs => if c.isDigit then digitsTail (c.toNat - 48) cs else none

/-- Python's `int(s)` for a string argument in base 10: strip
whitespace, accept one optional sign, then a digit run; anything else
raises `ValueError`. -/
def pyInt (s : String) : Except PyErr Int :=
  let cs := (s.toList.dropWhile isPySpace).reverse.dropWhile isPySpace |>.reverse
  let core : Option Int :=
    match cs with
    | '+' :: rest => (digitsVal rest).map Int.ofNat
    | '-' :: rest => (digitsVal rest).map (fun n => -(Int.ofNat n))
    | rest => (digitsVal rest).map Int.ofNat
  match core with
  | some n => Except.ok n
  | none =>
      Except.error (PyErr.valueError
        ("invalid literal for int() with base 10: " ++ s))

/-- `db.session.get(User, pk)`: fetch the `user` row with the given
primary key, or `None`; a read that leaves the database state as it
was. -/
def session_get (db : DB) (pk : Int) : Option User × DB :=
  (db.users.find? (fun u => u.id == pk), db)

/-- `load_user` (lines 53-71): `return db.session.get(User, int(id))`.
The string identifier is parsed with `int` first; a parse failure
propagates before the lookup runs. -/
def load_user (db : DB) (id : String) : Except PyErr (Option User × DB) :=
  match pyInt id with
  | Except.error e => Except.error e
  | Except.ok n => Except.ok (session_get db n)

/-- Modelled from the spec: the storage engine, which is external to
`app/models.py`, enforces the `unique=True` flags declared on the
`username` and `email` columns; creating a row that duplicates a value
in a declared-unique column fails with an integrity error surfaced by
the storage layer. -/
def insert_user (db : DB) (u : User) : Except PyErr DB :=
  if usernameColumn.unique && db.users.any (fun v => v.username == u.username)
  then
    Except.error (PyErr.integrityError "user.username")
  else if emailColumn.unique && db.users.any (fun v => v.email == u.email)
  then
    Except.error (PyErr.integrityError "user.email")
  else
    Except.ok { db with users := db.users ++ [u] }

/-- The uniqueness invariant on the `user` table: any two distinct rows
differ in username and differ in email. -/
def UsersUnique (db : DB) : Prop :=
  db.users.Pairwise (fun a b => a.username ≠ b.username ∧ a.email ≠ b.email)

/-- The Python-side column default of `Post.timestamp` (lines 87-88):
`default=lambda: datetime.now(timezone.utc)`, evaluated at insert time
when no timestamp is supplied; `clock` is the wall-clock reading the
`datetime.now` call would observe. -/
def timestampDefault (supplied : Option PyDatetime) (clock : Nat) :
    PyDatetime :=
  supplied.getD ⟨clock, true⟩

/-- Data of one post creation: primary key, body, author foreign key,
and the wall-clock reading at its insert. -/
structure PostInsert where
  pid : Int
  body : String
  uid : Int
  clock : Nat
  deriving DecidableEq, Repr

/-- Insert one post without an explicitly supplied timestamp: the
`timestamp` column takes its declared default at insert time. -/
def create_post (db : DB) (ins : PostInsert) : DB :=
  { db with
    posts := db.posts ++ [⟨ins.pid, ins.body, timestampDefault none ins.clock,
                           ins.uid⟩] }

/-- Sequentially insert a batch of posts, none with a supplied
timestamp. -/
def seqCreate (db : DB) (items : List PostInsert) : DB :=
  items.foldl create_post db

/-- The rows a batch of default-timestamp inserts appends. -/
def newPosts (items : List PostInsert) : List Post :=
  items.map (fun ins => ⟨ins.pid, ins.body, timestampDefault none ins.clock,
                         ins.uid⟩)

/-- Neither hashing name resolves in the module scope. -/
lemma resolves_gen_false : resolves "generate_password_hash" = false := by
  decide

/-- The verification name does not resolve in the module scope either. -/
lemma resolves_chk_false : resolves "check_password_hash" = false := by
  decide

/-- `set_password` always raises. -/
lemma set_password_eq_error (gen : String → String) (u : User) (p : String) :
    set_password gen u p = Except.error (PyErr.nameError "generate_password_hash") := by
  simp [set_password, resolves_gen_false]

/-- `check_password` always raises. -/
lemma check_password_eq_error (chk : Option String → String → Except PyErr Bool)
    (u : User) (p : String) :
    check_password chk u p = Except.error (PyErr.nameError "check_password_hash") := by
  simp [check_password, resolves_chk_false]

/-- C9: the names `generate_password_hash` and `check_password_hash` are
referenced by `set_password` and `check_password` but are bound neither
in the module scope nor in builtins, so for every user, every input and
every primitive the names could have denoted, both calls raise a
`NameError` before any hashing or comparison occurs. -/
theorem name_resolution_fails_before_hashing
    (gen : String → String) (chk : Option String → String → Except PyErr Bool)
    (u : User) (p : String) :
    moduleScope.contains "generate_password_hash" = false
    ∧ moduleScope.contains "check_password_hash" = false
    ∧ set_password gen u p
        = Except.error (PyErr.nameError "generate_password_hash")
    ∧ check_password chk u p
        = Except.error (PyErr.nameError "check_password_hash") := by
  refine ⟨by decide, by decide, ?_, ?_⟩
  · simp [set_password, resolves_gen_false]
  · simp [check_password, resolves_chk_false]

/-- C1: the spec's round trip fails on the code: there is no user state
`u'` produced by `set_password` at all (the call raises `NameError`), so
`set_password(p)` followed by `check_password(p)` never returns true,
for any hashing primitives the unresolved names could have denoted. -/
theorem set_then_check_roundtrip_fails
    (gen : String → String) (chk : Option String → String → Except PyErr Bool)
    (u : User) (p : String) :
    ¬ ∃ u', set_password gen u p = Except.ok u'
        ∧ check_password chk u' p = Except.ok true := by
  rintro ⟨u', h1, -⟩
  rw [set_password_eq_error] at h1
  exact absurd h1 (by simp)

/-- C2: on a user whose `password_hash` was never set, `check_password`
does raise and never returns true, but the failure is a `NameError`
raised while resolving the name `check_password_hash`; the hashing
primitive (which would receive the null hash) is never reached. -/
theorem check_password_unset_hash_name_error
    (chk : Option String → String → Except PyErr Bool) (u : User) (p : String)
    (_hnull : u.password_hash = none) :
    check_password chk u p = Except.error (PyErr.nameError "check_password_hash")
    ∧ (∀ b : Bool, check_password chk u p ≠ Except.ok b) := by
  refine ⟨check_password_eq_error chk u p, fun b hb => ?_⟩
  rw [check_password_eq_error] at hb
  exact absurd hb (by simp)

/-- Witness for C2 at a concrete unset-hash user. -/
theorem check_password_unset_hash_name_error_witness :
    check_password (fun _ _ => Except.ok false) ⟨1, "alice", "a@x.com", none⟩ "pw"
      = Except.error (PyErr.nameError "check_password_hash")
    ∧ (∀ b : Bool,
        check_password (fun _ _ => Except.ok false) ⟨1, "alice", "a@x.com", none⟩ "pw"
          ≠ Except.ok b) :=
  check_password_unset_hash_name_error
    (fun _ _ => Except.ok false) ⟨1, "alice", "a@x.com", none⟩ "pw" rfl

/-- C7: after calling `set_password(p)` nothing is stored at all: the
call raises before the assignment, the user object is unchanged, and in
particular no salted hash of `p` (and no plaintext) is ever written to
`password_hash`. -/
theorem set_password_stores_nothing (gen : String → String) (u : User)
    (p : String) :
    (set_password_run gen u p).1 = u
    ∧ (set_password_run gen u p).2 = some (PyErr.nameError "generate_password_hash")
    ∧ ∀ u', set_password gen u p ≠ Except.ok u' := by
  refine ⟨?_, ?_, fun u' h => ?_⟩
  · simp [set_password_run, set_password_eq_error]
  · simp [set_password_run, set_password_eq_error]
  · rw [set_password_eq_error] at h
    exact absurd h (by simp)

/-- With distinct primary keys, rewriting the row found by primary key
with itself is the identity on the table. -/
lemma map_replace_found_self {users : List User} {uid : Int} {u : User}
    (hWF : (users.map User.id).Nodup)
    (hfind : users.find? (fun v => v.id == uid) = some u) :
    users.map (fun v => if v.id == uid then u else v) = users := by
  have hu : u ∈ users := List.mem_of_find?_eq_some hfind
  have huid : u.id = uid := by
    have := List.find?_some hfind
    simpa using this
  have : ∀ v ∈ users, (if v.id == uid then u else v) = id v := by
    intro v hv
    by_cases hveq : v.id = uid
    · have : v = u := List.inj_on_of_nodup_map hWF hv hu (by rw [hveq, huid])
      simp [this, huid]
    · simp [hveq]
  rw [List.map_congr_left this, List.map_id]

/-- C10: calling `set_password` on the user with primary key `uid`
leaves the persisted state unchanged apart from (at most) that user's
`password_hash`: in the code the call raises before the assignment, so
the ids, usernames and emails of all users, every post row, and every
user's `posts` relation are exactly as before. -/
theorem set_password_frame (gen : String → String) (db : DB) (uid : Int)
    (p : String) (hWF : (db.users.map User.id).Nodup) :
    (set_password_db gen db uid p).1 = db
    ∧ (set_password_db gen db uid p).1.users.map
        (fun v => (v.id, v.username, v.email))
        = db.users.map (fun v => (v.id, v.username, v.email))
    ∧ (set_password_db gen db uid p).1.posts = db.posts
    ∧ ∀ a : Int, postsOfAuthor (set_password_db gen db uid p).1 a
        = postsOfAuthor db a := by
  have hmain : (set_password_db gen db uid p).1 = db := by
    unfold set_password_db
    cases hfind : db.users.find? (fun v => v.id == uid) with
    | none => rfl
    | some u =>
        have hrun : set_password_run gen u p
            = (u, some (PyErr.nameError "generate_password_hash")) := by
          simp [set_password_run, set_password_eq_error]
        simp only [hrun]
        rw [map_replace_found_self hWF hfind]
  exact ⟨hmain, by rw [hmain], by rw [hmain], fun a => by rw [hmain]⟩

/-- Witness for C10 on a concrete two-user database. -/
theorem set_password_frame_witness :
    (set_password_db (fun s => s) ⟨[⟨1, "alice", "a@x.com", none⟩,
        ⟨2, "bob", "b@x.com", some "h"⟩], [⟨1, "hi", ⟨0, true⟩, 2⟩]⟩ 1 "pw").1
      = ⟨[⟨1, "alice", "a@x.com", none⟩, ⟨2, "bob", "b@x.com", some "h"⟩],
         [⟨1, "hi", ⟨0, true⟩, 2⟩]⟩ :=
  (set_password_frame (fun s => s) ⟨[⟨1, "alice", "a@x.com", none⟩,
      ⟨2, "bob", "b@x.com", some "h"⟩], [⟨1, "hi", ⟨0, true⟩, 2⟩]⟩ 1 "pw"
      (by decide)).1

/-- With distinct primary keys, `find?` by primary key returns exactly
the member row that carries the key. -/
lemma find_by_unique_id {l : List User} (hWF : (l.map User.id).Nodup)
    {u : User} (hu : u ∈ l) {n : Int} (hid : u.id = n) :
    l.find? (fun v => v.id == n) = some u := by
  induction l with
  | nil => cases hu
  | cons a t ih =>
      rw [List.map_cons, List.nodup_cons] at hWF
      by_cases ha : a.id = n
      · have haeq : u = a := by
          rcases List.mem_cons.mp hu with h | h
          · exact h
          · exact absurd (show a.id ∈ t.map User.id from by
              rw [ha, ← hid]; exact List.mem_map_of_mem User.id h) hWF.1
        subst haeq
        simp [List.find?_cons, hid]
      · have hu' : u ∈ t := by
          rcases List.mem_cons.mp hu with h | h
          · exact absurd (h ▸ hid) ha
          · exact h
        simp [List.find?_cons, ha, ih hWF.2 hu']

/-- C3: when the string identifier parses as an integer, `load_user`
returns (without error) the user row carrying that primary key when one
exists, and `None` when none does; the database state is left as it
was. -/
theorem load_user_found_or_absent (db : DB) (s : String) (n : Int)
    (hWF : (db.users.map User.id).Nodup) (hs : pyInt s = Except.ok n) :
    (∀ u ∈ db.users, u.id = n → load_user db s = Except.ok (some u, db))
    ∧ ((∀ u ∈ db.users, u.id ≠ n) → load_user db s = Except.ok (none, db)) := by
  constructor
  · intro u hu hid
    simp only [load_user, hs, session_get]
    rw [find_by_unique_id hWF hu hid]
  · intro habs
    simp only [load_user, hs, session_get]
    have : db.users.find? (fun v => v.id == n) = none := by
      rw [List.find?_eq_none]
      intro v hv
      simpa using habs v hv
    rw [this]

/-- Witness for C3: a present id is found, an absent id yields `None`. -/
theorem load_user_found_or_absent_witness :
    load_user ⟨[⟨7, "alice", "a@x.com", none⟩], []⟩ "7"
      = Except.ok (some ⟨7, "alice", "a@x.com", none⟩,
          ⟨[⟨7, "alice", "a@x.com", none⟩], []⟩)
    ∧ load_user ⟨[⟨7, "alice", "a@x.com", none⟩], []⟩ "8"
      = Except.ok (none, ⟨[⟨7, "alice", "a@x.com", none⟩], []⟩) :=
  ⟨(load_user_found_or_absent ⟨[⟨7, "alice", "a@x.com", none⟩], []⟩ "7" 7
      (by decide) rfl).1 ⟨7, "alice", "a@x.com", none⟩ (by simp) rfl,
   (load_user_found_or_absent ⟨[⟨7, "alice", "a@x.com", none⟩], []⟩ "8" 8
      (by decide) rfl).2 (by decide)⟩

/-- C4: when the string identifier does not parse as an integer, the
`ValueError` raised by `int` propagates unhandled out of `load_user`:
no value is returned. -/
theorem load_user_propagates_parse_error (db : DB) (s : String) (e : PyErr)
    (hs : pyInt s = Except.error e) :
    load_user db s = Except.error e
    ∧ ∀ r, load_user db s ≠ Except.ok r := by
  have hmain : load_user db s = Except.error e := by
    simp only [load_user, hs]
  exact ⟨hmain, fun r hr => by rw [hmain] at hr; exact absurd hr (by simp)⟩

/-- Witness for C4 at the non-numeric identifier `"abc"`. -/
theorem load_user_propagates_parse_error_witness :
    load_user ⟨[], []⟩ "abc"
      = Except.error (PyErr.valueError
          "invalid literal for int() with base 10: abc")
    ∧ ∀ r, load_user ⟨[], []⟩ "abc" ≠ Except.ok r :=
  load_user_propagates_parse_error ⟨[], []⟩ "abc"
    (PyErr.valueError "invalid literal for int() with base 10: abc") rfl

/-- C8: `load_user` is read-only and idempotent: a successful call
returns the database state unchanged, and re-running the call in the
resulting state returns the very same answer; a failing call carries no
state at all. -/
theorem load_user_readonly_idempotent (db : DB) (s : String)
    (r : Option User) (db' : DB)
    (h : load_user db s = Except.ok (r, db')) :
    db' = db ∧ load_user db' s = Except.ok (r, db') := by
  have hdb : db' = db := by
    cases hp : pyInt s with
    | error e =>
        simp only [load_user, hp] at h
        exact absurd h (by simp)
    | ok n =>
        simp only [load_user, hp, session_get] at h
        have h2 := (Except.ok.injEq _ _).mp h
        exact (congrArg Prod.snd h2).symm
  exact ⟨hdb, hdb ▸ h⟩

/-- Witness for C8 on a concrete database. -/
theorem load_user_readonly_idempotent_witness :
    (⟨[⟨3, "carol", "c@x.com", none⟩], []⟩ : DB)
      = ⟨[⟨3, "carol", "c@x.com", none⟩], []⟩
    ∧ load_user ⟨[⟨3, "carol", "c@x.com", none⟩], []⟩ "3"
      = Except.ok (some ⟨3, "carol", "c@x.com", none⟩,
          ⟨[⟨3, "carol", "c@x.com", none⟩], []⟩) :=
  load_user_readonly_idempotent ⟨[⟨3, "carol", "c@x.com", none⟩], []⟩ "3"
    (some ⟨3, "carol", "c@x.com", none⟩)
    ⟨[⟨3, "carol", "c@x.com", none⟩], []⟩ rfl

/-- C5: the `unique=True` flags declared on `username` and `email` make
each globally unique: a successful insert into a table whose rows are
pairwise distinct in username and email keeps them pairwise distinct,
and inserting a row that reuses an existing username (resp. email)
fails with an integrity error surfaced by the storage layer. -/
theorem unique_constraints (db : DB) (u : User) :
    (∀ db', UsersUnique db → insert_user db u = Except.ok db' →
      UsersUnique db')
    ∧ ((∃ v ∈ db.users, v.username = u.username) →
        insert_user db u = Except.error (PyErr.integrityError "user.username"))
    ∧ ((∃ v ∈ db.users, v.email = u.email) →
        insert_user db u = Except.error (PyErr.integrityError "user.email")
        ∨ insert_user db u
            = Except.error (PyErr.integrityError "user.username")) := by
  refine ⟨?_, ?_, ?_⟩
  · intro db' hUU hok
    by_cases h1 : db.users.any (fun v => v.username == u.username)
    · simp [insert_user, usernameColumn, h1] at hok
    · by_cases h2 : db.users.any (fun v => v.email == u.email)
      · simp [insert_user, usernameColumn, emailColumn, h1, h2] at hok
      · have hdb' : db' = { db with users := db.users ++ [u] } := by
          simp [insert_user, usernameColumn, emailColumn, h1, h2] at hok
          exact hok.symm
        subst hdb'
        have h1' : ∀ v ∈ db.users, v.username ≠ u.username := by
          intro v hv hvne
          exact h1 (List.any_eq_true.mpr ⟨v, hv, by simp [hvne]⟩)
        have h2' : ∀ v ∈ db.users, v.email ≠ u.email := by
          intro v hv hvne
          exact h2 (List.any_eq_true.mpr ⟨v, hv, by simp [hvne]⟩)
        unfold UsersUnique at hUU ⊢
        rw [List.pairwise_append]
        refine ⟨hUU, List.pairwise_singleton _ _, ?_⟩
        intro a ha b hb
        rw [List.mem_singleton] at hb
        subst hb
        exact ⟨h1' a ha, h2' a ha⟩
  · rintro ⟨v, hv, hveq⟩
    have h1 : db.users.any (fun w => w.username == u.username) = true :=
      List.any_eq_true.mpr ⟨v, hv, by simp [hveq]⟩
    simp [insert_user, usernameColumn, h1]
  · rintro ⟨v, hv, hveq⟩
    by_cases h1 : db.users.any (fun w => w.username == u.username)
    · right
      simp [insert_user, usernameColumn, h1]
    · left
      have h2 : db.users.any (fun w => w.email == u.email) = true :=
        List.any_eq_true.mpr ⟨v, hv, by simp [hveq]⟩
      simp [insert_user, usernameColumn, emailColumn, h1, h2]

/-- Witness for C5: a fresh pair inserts cleanly and stays unique; a
reused username and a reused email are each rejected. -/
theorem unique_constraints_witness :
    UsersUnique ⟨[⟨1, "alice", "a@x.com", none⟩, ⟨2, "bob", "b@x.com", none⟩], []⟩
    ∧ insert_user ⟨[⟨1, "alice", "a@x.com", none⟩], []⟩
        ⟨2, "alice", "c@x.com", none⟩
        = Except.error (PyErr.integrityError "user.username")
    ∧ (insert_user ⟨[⟨1, "alice", "a@x.com", none⟩], []⟩
        ⟨2, "carol", "a@x.com", none⟩
        = Except.error (PyErr.integrityError "user.email")
       ∨ insert_user ⟨[⟨1, "alice", "a@x.com", none⟩], []⟩
        ⟨2, "carol", "a@x.com", none⟩
        = Except.error (PyErr.integrityError "user.username")) :=
  ⟨(unique_constraints ⟨[⟨1, "alice", "a@x.com", none⟩], []⟩
      ⟨2, "bob", "b@x.com", none⟩).1
      ⟨[⟨1, "alice", "a@x.com", none⟩, ⟨2, "bob", "b@x.com", none⟩], []⟩
      (by unfold UsersUnique; decide) rfl,
   (unique_constraints ⟨[⟨1, "alice", "a@x.com", none⟩], []⟩
      ⟨2, "alice", "c@x.com", none⟩).2.1
      ⟨⟨1, "alice", "a@x.com", none⟩, by simp, rfl⟩,
   (unique_constraints ⟨[⟨1, "alice", "a@x.com", none⟩], []⟩
      ⟨2, "carol", "a@x.com", none⟩).2.2
      ⟨⟨1, "alice", "a@x.com", none⟩, by simp, rfl⟩⟩

/-- Folding default-timestamp inserts appends exactly the new rows. -/
lemma seqCreate_posts (db : DB) (items : List PostInsert) :
    (seqCreate db items).posts = db.posts ++ newPosts items := by
  induction items generalizing db with
  | nil => simp [seqCreate, newPosts]
  | cons i is ih =>
      have h1 : seqCreate db (i :: is) = seqCreate (create_post db i) is := rfl
      rw [h1, ih]
      simp [create_post, newPosts]

/-- C6: a batch of posts created without supplied timestamps gets, at
insert time, each row's `timestamp` equal to the wall-clock instant of
its insert tagged as UTC; and when the successive clock readings are
non-decreasing (wall time does not step backwards between inserts), the
stored timestamps are monotonically non-decreasing in creation order. -/
theorem post_timestamp_default_utc_monotone (db : DB)
    (items : List PostInsert)
    (h : List.Chain' (· ≤ ·) (items.map PostInsert.clock)) :
    (seqCreate db items).posts = db.posts ++ newPosts items
    ∧ newPosts items = items.map
        (fun ins => ⟨ins.pid, ins.body, ⟨ins.clock, true⟩, ins.uid⟩)
    ∧ List.Chain' (· ≤ ·)
        ((newPosts items).map (fun p => p.timestamp.epochMicros)) := by
  refine ⟨seqCreate_posts db items, rfl, ?_⟩
  have hmap : (newPosts items).map (fun p => p.timestamp.epochMicros)
      = items.map PostInsert.clock := by
    rw [newPosts, List.map_map]
    exact List.map_congr_left (fun ins _ => rfl)
  rw [hmap]
  exact h

/-- Witness for C6 on three inserts at clock readings 10, 10, 12. -/
theorem post_timestamp_default_utc_monotone_witness :
    (seqCreate ⟨[], []⟩
        [⟨1, "a", 1, 10⟩, ⟨2, "b", 1, 10⟩, ⟨3, "c", 1, 12⟩]).posts
      = [] ++ newPosts [⟨1, "a", 1, 10⟩, ⟨2, "b", 1, 10⟩, ⟨3, "c", 1, 12⟩]
    ∧ newPosts [⟨1, "a", 1, 10⟩, ⟨2, "b", 1, 10⟩, ⟨3, "c", 1, 12⟩]
      = ([⟨1, "a", 1, 10⟩, ⟨2, "b", 1, 10⟩, ⟨3, "c", 1, 12⟩] :
          List PostInsert).map
          (fun ins => ⟨ins.pid, ins.body, ⟨ins.clock, true⟩, ins.uid⟩)
    ∧ List.Chain' (· ≤ ·)
        ((newPosts [⟨1, "a", 1, 10⟩, ⟨2, "b", 1, 10⟩, ⟨3, "c", 1, 12⟩]).map
          (fun p => p.timestamp.epochMicros)) :=
  post_timestamp_default_utc_monotone ⟨[], []⟩
    [⟨1, "a", 1, 10⟩, ⟨2, "b", 1, 10⟩, ⟨3, "c", 1, 12⟩]
    (by simp [List.chain'_cons])

end GenBlog
